import Mathlib

/-!
Shallow embedding of the clash-speedtest measurement engine
(`src/unnamed/part_000`): the concurrent download test
(`TestProxy`, `TestProxyConcurrent`) and the geolocation resolver
(`checkCountry`, `queryIPLocation`), together with the dial-closure
port handling shared by both HTTP clients.

Modelling conventions:
* Go `time.Duration` values are integers counting nanoseconds (`ℤ`).
* Go `float64` arithmetic on bandwidths is modelled exactly over `ℚ`;
  the comparisons the program performs (`> 1e-9`, sign checks) are far
  from any rounding boundary at every value the claims mention.
* Network effects are inputs: each worker's HTTP GET is summarised by a
  `GetOutcome`, each geolocation candidate by an `ApiOutcome`, and the
  wall-clock span of the fan-out by an `elapsedNs` parameter.
* `rand.Shuffle` is an arbitrary permutation, passed as a parameter.
-/

namespace ClashSpeedtest

/-! ### JSON values, as far as the program inspects them

`queryIPLocation` decodes a body into `map[string]interface{}` and only
ever performs string type assertions on the fields `ip`, `country_code`
and `country`.  A decoded object is an association list from keys to
values that are either strings or something else. -/

inductive JVal where
  | str (s : String)
  | other
  deriving DecidableEq, Repr

def JObj : Type := List (String × JVal)

instance : DecidableEq JObj := by unfold JObj; infer_instance

/-- Go's comma-ok string type assertion `result[k].(string)`:
yields the string and `true` when the key is present with a string
value, and `("", false)` otherwise. -/
def stringAssert (result : JObj) (k : String) : String × Bool :=
  match List.lookup k result with
  | some (JVal.str s) => (s, true)
  | _ => ("", false)

/-- Embeds `checkCountry` (src/unnamed/part_000:255-270): returns
`(countryCode, ip, ok)`. -/
def checkCountry (result : JObj) : String × String × Bool :=
  let (ip, ipOk) := stringAssert result "ip"
  if ipOk = true ∧ ip ≠ "" then
    let (cc, ccOk) := stringAssert result "country_code"
    if ccOk = true ∧ cc ≠ "" then
      (cc, ip, true)
    else
      let (c, cOk) := stringAssert result "country"
      if cOk = true ∧ c ≠ "" then
        (c, ip, true)
      else
        ("", ip, true)
  else
    ("", "", false)

/-! ### The geolocation candidate loop -/

/-- What one candidate URL produced when tried: a request-creation or
transport error, or an HTTP response with a status code and a body that
either decodes to a JSON object or fails to decode (`none`). -/
inductive ApiOutcome where
  | netErr
  | resp (status : ℤ) (body : Option JObj)
  deriving DecidableEq

/-- Embeds the candidate loop and final error of `queryIPLocation`
(src/unnamed/part_000:312-358), the candidate list abstracted to the
sequence of outcomes its URLs would produce.  Returns Go's
`(country_code, ip, err)` triple, `err` as an `Option String`. -/
def queryIPLocation : List ApiOutcome → String × String × Option String
  | [] => ("", "", some "all APIs failed or returned invalid data")
  | ApiOutcome.netErr :: rest => queryIPLocation rest
  | ApiOutcome.resp status body :: rest =>
      if status ≠ 200 then queryIPLocation rest
      else
        match body with
        | none => queryIPLocation rest
        | some result =>
            let (cc, ip, ok) := checkCountry result
            if ok = true then (cc, ip, none)
            else queryIPLocation rest

/-! ### Candidate URL construction -/

def fallbackURL : String := "https://api.ip.sb/geoip"

def tokenURL (token : String) : String :=
  "http://ipinfo.io/json?token=" ++ token

/-- Embeds the URL-list construction of `queryIPLocation`
(src/unnamed/part_000:294-310): one ipinfo.io URL per token, the
`rand.Shuffle` call modelled by an arbitrary `shuffle` function, and
the ip.sb fallback appended after shuffling. -/
def buildApiURLs (ipTokenArray : List String)
    (shuffle : List String → List String) : List String :=
  shuffle (ipTokenArray.map tokenURL) ++ [fallbackURL]

/-! ### The download test -/

/-- The `Result` record (src/unnamed/part_000:48-54).  `Bandwidth` is a
Go `float64`, modelled over `ℚ`; `TTFB` is a `time.Duration` in
nanoseconds. -/
structure Result where
  Name : String
  Bandwidth : ℚ
  TTFB : ℤ
  CountryCode : String
  IP : String
  deriving DecidableEq

/-- What one worker's `client.Get` of the liveness object produced:
a connect/timeout error before any response, or a response with a
status code, the time to first byte, the number of body bytes
`io.Copy` managed to read, whether `io.Copy` stopped on a mid-stream
error or timeout (its ignored second return value), and the body-copy
time. -/
inductive GetOutcome where
  | connErr
  | resp (status : ℤ) (ttfbNs : ℕ) (bodyRead : ℕ) (midStreamErr : Bool)
      (copyNs : ℕ)
  deriving DecidableEq

/-- `time.Duration.Seconds()`: nanoseconds to seconds, exactly. -/
def seconds (ns : ℤ) : ℚ := (ns : ℚ) / (10 ^ 9 : ℚ)

/-- Embeds `TestProxy` (src/unnamed/part_000:410-451): one worker's
chunk download, returning its per-chunk `Result` and the written byte
count.  The failure paths return the `-1` sentinels with `0` bytes;
`io.Copy`'s error is discarded, so on the success path `bodyRead`
counts whether or not `midStreamErr` is set. -/
def TestProxy (name : String) (o : GetOutcome) : Result × ℤ :=
  match o with
  | GetOutcome.connErr => (⟨name, -1, -1, "", ""⟩, 0)
  | GetOutcome.resp status ttfbNs bodyRead _midStreamErr copyNs =>
      if status - 200 > 100 then (⟨name, -1, -1, "", ""⟩, 0)
      else if (bodyRead : ℤ) = 0 then (⟨name, -1, -1, "", ""⟩, 0)
      else
        (⟨name, (bodyRead : ℚ) / seconds (copyNs : ℤ), (ttfbNs : ℤ), "", ""⟩,
         (bodyRead : ℤ))

/-- One worker's additions to the shared `(downloaded, totalTTFB)`
accumulators (src/unnamed/part_000:376-380): skipped entirely when the
returned byte count is zero. -/
def chunkContribution (name : String) (o : GetOutcome) : ℤ × ℤ :=
  if (TestProxy name o).2 ≠ 0 then
    ((TestProxy name o).2, (TestProxy name o).1.TTFB)
  else (0, 0)

/-- Final value of the `downloaded` accumulator over all workers. -/
def totalDownloaded (name : String) (os : List GetOutcome) : ℤ :=
  (os.map fun o => (chunkContribution name o).1).sum

/-- Final value of the `totalTTFB` accumulator over all workers. -/
def totalTTFB (name : String) (os : List GetOutcome) : ℤ :=
  (os.map fun o => (chunkContribution name o).2).sum

/-- The clamp `if concurrentCount <= 0 { concurrentCount = 1 }`
(src/unnamed/part_000:363-365). -/
def clampConcurrent (concurrentCount : ℤ) : ℤ :=
  if concurrentCount ≤ 0 then 1 else concurrentCount

/-- `chunkSize := downloadSize / concurrentCount` after clamping
(src/unnamed/part_000:367); Go `int` division truncates toward zero. -/
def chunkSize (downloadSize concurrentCount : ℤ) : ℤ :=
  downloadSize.tdiv (clampConcurrent concurrentCount)

/-- `float64(downloaded) / downloadTime.Seconds()`
(src/unnamed/part_000:389). -/
def aggregateBandwidth (downloaded : ℤ) (elapsedNs : ℤ) : ℚ :=
  (downloaded : ℚ) / seconds elapsedNs

/-- `const epsilon = 1e-9` (src/unnamed/part_000:396). -/
def epsilon : ℚ := 1 / 10 ^ 9

/-- A whole run of `TestProxyConcurrent`: the returned `Result`, the
number of `queryIPLocation` calls made, and the chunk size each worker
was asked to download. -/
structure ConcurrentRun where
  result : Result
  geoCalls : ℕ
  requestedChunkSize : ℤ
  deriving DecidableEq

/-- Embeds `TestProxyConcurrent` (src/unnamed/part_000:362-408).
`os` are the outcomes of the workers' downloads, `elapsedNs` the
wall-clock span of the fan-out, and `apis` the outcomes the
geolocation candidates would produce if queried. -/
def TestProxyConcurrent (name : String) (downloadSize : ℤ)
    (concurrentCount : ℤ) (os : List GetOutcome) (elapsedNs : ℤ)
    (apis : List ApiOutcome) : ConcurrentRun :=
  let n := clampConcurrent concurrentCount
  let downloaded := totalDownloaded name os
  let ttfbSum := totalTTFB name os
  let result0 : Result :=
    ⟨name, aggregateBandwidth downloaded elapsedNs, ttfbSum.tdiv n,
     "NIL", "NIL"⟩
  if result0.Bandwidth > epsilon then
    match queryIPLocation apis with
    | (country_code, ip, none) =>
        ⟨{ result0 with
            CountryCode :=
              if country_code ≠ "" then country_code else result0.CountryCode,
            IP := ip },
         1, chunkSize downloadSize concurrentCount⟩
    | (_, _, some _) => ⟨result0, 1, chunkSize downloadSize concurrentCount⟩
  else ⟨result0, 0, chunkSize downloadSize concurrentCount⟩

/-! ### The dial closures

Both `TestProxy` (src/unnamed/part_000:414-427) and `queryIPLocation`
(src/unnamed/part_000:277-290) install the same `DialContext` closure:
split the address, and parse the port with
`strconv.ParseUint(port, 10, 16)`, ignoring any parse error so that
`u16Port` keeps its zero value. -/

/-- The decimal value of a digit string, accumulated left to right. -/
def digitsToNat (cs : List Char) : ℕ :=
  cs.foldl (fun acc ch => acc * 10 + (ch.toNat - 48)) 0

/-- `strconv.ParseUint(s, 10, 16)`: no sign, decimal digits only,
value below `2^16`; `none` on syntax or range error. -/
def parseUint16 (s : String) : Option ℕ :=
  match s.toList with
  | [] => none
  | cs =>
      if cs.all (fun ch => ch.isDigit) then
        if digitsToNat cs < 2 ^ 16 then some (digitsToNat cs) else none
      else none

/-- The dial closure's construction of the `C.Metadata` destination,
given the result of `net.SplitHostPort` on the address: `none` models
the dial returning the split error; otherwise the host together with
the `DstPort` actually passed to `proxy.DialContext`. -/
def dialMetadata (splitHostPort : Option (String × String)) :
    Option (String × ℕ) :=
  match splitHostPort with
  | none => none
  | some (host, port) =>
      let u16Port : ℕ :=
        match parseUint16 port with
        | some p => p
        | none => 0
      some (host, u16Port)

/-! ### Spec-side definitions

The following definitions transcribe the spec's wording (not the code)
so that the claims' acceptance and failure conditions can be compared
against the embedded functions. -/

/-- A field read off a decoded JSON object: `some s` exactly when the
key is present with a string value. -/
def getStringField (result : JObj) (k : String) : Option String :=
  match List.lookup k result with
  | some (JVal.str s) => some s
  | _ => none

/-- Spec wording (claim C6): a candidate response is accepted iff the
HTTP status is exactly 200, the body decodes as a JSON object, and the
object's `ip` field is a non-empty string. -/
def specAccepts : ApiOutcome → Bool
  | ApiOutcome.resp status (some body) =>
      status == 200 &&
        (match getStringField body "ip" with
         | some ip => ip != ""
         | none => false)
  | _ => false

/-- Spec wording: the `country` field when it is a non-empty string,
otherwise the empty string. -/
def specCountryFallback (body : JObj) : String :=
  match getStringField body "country" with
  | some c => if c ≠ "" then c else ""
  | none => ""

/-- Spec wording (claim C6): the returned country code is the
`country_code` field when it is a non-empty string, otherwise the
`country` field when it is a non-empty string, otherwise `""`. -/
def specCountryCode (body : JObj) : String :=
  match getStringField body "country_code" with
  | some c => if c ≠ "" then c else specCountryFallback body
  | none => specCountryFallback body

/-- The `ip` string an accepted candidate returns (junk `""` on
non-accepted outcomes). -/
def specIp : ApiOutcome → String
  | ApiOutcome.resp _ (some body) => (getStringField body "ip").getD ""
  | _ => ""

/-- The country string an accepted candidate returns (junk `""` on
non-accepted outcomes). -/
def specCountry : ApiOutcome → String
  | ApiOutcome.resp _ (some body) => specCountryCode body
  | _ => ""

/-- Spec wording (claim C7): a chunk fails iff the request got a
connection/timeout error, an HTTP status more than 100 above 200, or
zero body bytes were read. -/
def specChunkFails : GetOutcome → Bool
  | GetOutcome.connErr => true
  | GetOutcome.resp status _ bodyRead _ _ =>
      decide (100 < status - 200) || (bodyRead == 0)

/-! ## Helper lemmas -/

theorem stringAssert_eq_getStringField (result : JObj) (k : String) :
    stringAssert result k =
      match getStringField result k with
      | some s => (s, true)
      | none => ("", false) := by
  unfold stringAssert getStringField
  cases h : List.lookup k result with
  | none => rfl
  | some v => cases v <;> rfl

theorem checkCountry_eq (result : JObj) :
    checkCountry result =
      match getStringField result "ip" with
      | some ip =>
          if ip ≠ "" then (specCountryCode result, ip, true)
          else ("", "", false)
      | none => ("", "", false) := by
  unfold checkCountry specCountryCode specCountryFallback
  rw [stringAssert_eq_getStringField result "ip",
    stringAssert_eq_getStringField result "country_code",
    stringAssert_eq_getStringField result "country"]
  cases getStringField result "ip" with
  | none => simp
  | some ip =>
      by_cases hip : ip = ""
      · simp [hip]
      · cases getStringField result "country_code" with
        | none =>
            cases getStringField result "country" with
            | none => simp [hip]
            | some c => by_cases hc : c = "" <;> simp [hip, hc]
        | some cc =>
            by_cases hcc : cc = ""
            · cases getStringField result "country" with
              | none => simp [hip, hcc]
              | some c => by_cases hc : c = "" <;> simp [hip, hcc, hc]
            · simp [hip, hcc]

/-- One step of the candidate loop: an accepted candidate stops the
iteration with the spec-described values; anything else advances. -/
theorem queryIPLocation_step (o : ApiOutcome) (rest : List ApiOutcome) :
    queryIPLocation (o :: rest) =
      if specAccepts o = true then (specCountry o, specIp o, none)
      else queryIPLocation rest := by
  cases o with
  | netErr => simp [queryIPLocation, specAccepts]
  | resp status body =>
      cases body with
      | none =>
          simp only [queryIPLocation, specAccepts]
          split <;> simp
      | some result =>
          simp only [queryIPLocation]
          rw [checkCountry_eq]
          by_cases hs : status = 200
          · subst hs
            simp only [if_neg (by simp : ¬ (200 : ℤ) ≠ 200)]
            cases hip : getStringField result "ip" with
            | none => simp [specAccepts, hip]
            | some ip =>
                by_cases hemp : ip = ""
                · simp [specAccepts, hip, hemp]
                · simp [specAccepts, specCountry, specIp, hip, hemp]
          · simp [specAccepts, hs, if_pos hs]


theorem specAccepts_specIp_ne (o : ApiOutcome) (h : specAccepts o = true) :
    specIp o ≠ "" := by
  cases o with
  | netErr => simp [specAccepts] at h
  | resp status body =>
      cases body with
      | none => simp [specAccepts] at h
      | some r =>
          simp only [specAccepts, Bool.and_eq_true] at h
          obtain ⟨-, h2⟩ := h
          cases hip : getStringField r "ip" with
          | none => rw [hip] at h2; simp at h2
          | some ip =>
              rw [hip] at h2
              simp only [bne_iff_ne, ne_eq] at h2
              simp [specIp, hip, h2]

theorem queryIPLocation_ok_ip_ne (apis : List ApiOutcome) (c ip : String)
    (h : queryIPLocation apis = (c, ip, none)) : ip ≠ "" := by
  induction apis with
  | nil => simp [queryIPLocation] at h
  | cons o rest ih =>
      rw [queryIPLocation_step] at h
      by_cases ha : specAccepts o = true
      · rw [if_pos ha] at h
        have h2 : specIp o = ip := congrArg (fun t => t.2.1) h
        exact h2 ▸ specAccepts_specIp_ne o ha
      · rw [if_neg ha] at h
        exact ih h

theorem queryIPLocation_all_reject (outcomes : List ApiOutcome)
    (h : ∀ x ∈ outcomes, specAccepts x = false) :
    queryIPLocation outcomes =
      ("", "", some "all APIs failed or returned invalid data") := by
  induction outcomes with
  | nil => rfl
  | cons o rest ih =>
      rw [queryIPLocation_step,
        if_neg (by simp [h o (List.mem_cons_self o rest)])]
      exact ih fun x hx => h x (List.mem_cons_of_mem o hx)

theorem TestProxy_snd_nonneg (name : String) (o : GetOutcome) :
    0 ≤ (TestProxy name o).2 := by
  cases o with
  | connErr => simp [TestProxy]
  | resp s t r m c =>
      simp only [TestProxy]
      split_ifs <;> simp

theorem chunkContribution_fst_nonneg (name : String) (o : GetOutcome) :
    0 ≤ (chunkContribution name o).1 := by
  unfold chunkContribution
  split_ifs with h
  · exact TestProxy_snd_nonneg name o
  · simp

theorem chunkContribution_snd_eq_zero (name : String) (o : GetOutcome)
    (h : (chunkContribution name o).1 = 0) :
    (chunkContribution name o).2 = 0 := by
  unfold chunkContribution at h ⊢
  split_ifs at h ⊢ with hw
  · exact absurd h hw
  · rfl

theorem totalDownloaded_nonneg (name : String) (os : List GetOutcome) :
    0 ≤ totalDownloaded name os := by
  unfold totalDownloaded
  apply List.sum_nonneg
  intro x hx
  obtain ⟨o, -, rfl⟩ := List.mem_map.mp hx
  exact chunkContribution_fst_nonneg name o

theorem totalTTFB_eq_zero_of (name : String) (os : List GetOutcome)
    (h : totalDownloaded name os = 0) : totalTTFB name os = 0 := by
  induction os with
  | nil => rfl
  | cons o rest ih =>
      have h1 : 0 ≤ (chunkContribution name o).1 :=
        chunkContribution_fst_nonneg name o
      have h2 : 0 ≤ totalDownloaded name rest := totalDownloaded_nonneg name rest
      have hsum : (chunkContribution name o).1 + totalDownloaded name rest = 0 := by
        unfold totalDownloaded at h ⊢
        simpa [List.map_cons, List.sum_cons] using h
      have hfst : (chunkContribution name o).1 = 0 := by omega
      have hrest : totalDownloaded name rest = 0 := by omega
      have hsnd := chunkContribution_snd_eq_zero name o hfst
      unfold totalTTFB at ih ⊢
      simp only [List.map_cons, List.sum_cons]
      rw [hsnd, zero_add]
      exact ih hrest

theorem totalTTFB_eq_filter (name : String) (os : List GetOutcome) :
    totalTTFB name os =
      ((os.filter fun o => (TestProxy name o).2 != 0).map
        fun o => (TestProxy name o).1.TTFB).sum := by
  induction os with
  | nil => rfl
  | cons o rest ih =>
      unfold totalTTFB at ih ⊢
      simp only [List.map_cons, List.sum_cons, List.filter_cons]
      by_cases hw : (TestProxy name o).2 = 0
      · rw [show (chunkContribution name o).2 = 0 by
            simp [chunkContribution, hw],
          show ((TestProxy name o).2 != 0) = false by simp [hw]]
        simpa using ih
      · rw [show (chunkContribution name o).2 = (TestProxy name o).1.TTFB by
            simp [chunkContribution, hw],
          show ((TestProxy name o).2 != 0) = true by simp [hw]]
        simp [ih]

theorem aggregateBandwidth_eq (d e : ℤ) :
    aggregateBandwidth d e = (d : ℚ) * 10 ^ 9 / (e : ℚ) := by
  unfold aggregateBandwidth seconds
  rw [div_div_eq_mul_div]

theorem run_result_base (name : String) (ds cc : ℤ) (os : List GetOutcome)
    (e : ℤ) (apis : List ApiOutcome) :
    (TestProxyConcurrent name ds cc os e apis).result.Bandwidth =
      aggregateBandwidth (totalDownloaded name os) e ∧
    (TestProxyConcurrent name ds cc os e apis).result.TTFB =
      (totalTTFB name os).tdiv (clampConcurrent cc) ∧
    (TestProxyConcurrent name ds cc os e apis).requestedChunkSize =
      chunkSize ds cc := by
  simp only [TestProxyConcurrent]
  split_ifs with h
  · split <;> simp
  · simp

theorem run_geoCalls_eq (name : String) (ds cc : ℤ) (os : List GetOutcome)
    (e : ℤ) (apis : List ApiOutcome) :
    (TestProxyConcurrent name ds cc os e apis).geoCalls =
      if aggregateBandwidth (totalDownloaded name os) e > epsilon then 1
      else 0 := by
  simp only [TestProxyConcurrent]
  split_ifs with h
  · split <;> rfl
  · rfl

theorem run_geo_cases (name : String) (ds cc : ℤ) (os : List GetOutcome)
    (e : ℤ) (apis : List ApiOutcome) :
    ((TestProxyConcurrent name ds cc os e apis).result.CountryCode = "NIL" ∧
     (TestProxyConcurrent name ds cc os e apis).result.IP = "NIL") ∨
    (∃ c ip, queryIPLocation apis = (c, ip, none) ∧
      (TestProxyConcurrent name ds cc os e apis).result.IP = ip ∧
      (TestProxyConcurrent name ds cc os e apis).result.CountryCode =
        (if c ≠ "" then c else "NIL")) := by
  simp only [TestProxyConcurrent]
  split_ifs with h
  · rcases hq : queryIPLocation apis with ⟨c, ip, err⟩
    cases err with
    | none =>
        right
        refine ⟨c, ip, ?_, ?_, ?_⟩ <;> simp [hq]
    | some msg =>
        left
        simp [hq]
  · left
    simp

/-! ## Claims -/

/-- C1 (counterexample): in a run of `TestProxyConcurrent` where every
chunk fails, the aggregated `Bandwidth` and `TTFB` are `0`, not the
claimed sentinel `-1`: the per-chunk `-1` sentinels are discarded by
the accumulators, so `0/elapsed = 0` and `0/concurrency = 0`. -/
theorem allChunksFail_not_neg_one :
    totalDownloaded "proxy" [GetOutcome.connErr, GetOutcome.connErr] = 0 ∧
    (TestProxyConcurrent "proxy" 1024 2 [GetOutcome.connErr, GetOutcome.connErr]
        (10 ^ 9) []).result.Bandwidth = 0 ∧
    (TestProxyConcurrent "proxy" 1024 2 [GetOutcome.connErr, GetOutcome.connErr]
        (10 ^ 9) []).result.TTFB = 0 ∧
    (TestProxyConcurrent "proxy" 1024 2 [GetOutcome.connErr, GetOutcome.connErr]
        (10 ^ 9) []).result.Bandwidth ≠ -1 ∧
    (TestProxyConcurrent "proxy" 1024 2 [GetOutcome.connErr, GetOutcome.connErr]
        (10 ^ 9) []).result.TTFB ≠ -1 := by
  norm_num [TestProxyConcurrent, totalDownloaded, totalTTFB, chunkContribution,
    TestProxy, aggregateBandwidth, seconds, epsilon, clampConcurrent, chunkSize,
    queryIPLocation]

/-- C1 (amended): for every run of `TestProxyConcurrent` in which every
chunk fails (the accumulated byte count is zero) and the fan-out takes
positive wall-clock time, the returned `Result` has `Bandwidth = 0` and
`TTFB = 0` (not `-1`), and geolocation is skipped. -/
theorem allChunksFail_zero_and_geo_skipped (name : String) (ds cc : ℤ)
    (os : List GetOutcome) (e : ℤ) (apis : List ApiOutcome)
    (hfail : totalDownloaded name os = 0) (_he : 0 < e) :
    (TestProxyConcurrent name ds cc os e apis).result.Bandwidth = 0 ∧
    (TestProxyConcurrent name ds cc os e apis).result.TTFB = 0 ∧
    (TestProxyConcurrent name ds cc os e apis).geoCalls = 0 := by
  have hb : aggregateBandwidth (totalDownloaded name os) e = 0 := by
    rw [hfail, aggregateBandwidth_eq]
    norm_num
  refine ⟨?_, ?_, ?_⟩
  · rw [(run_result_base name ds cc os e apis).1, hb]
  · rw [(run_result_base name ds cc os e apis).2.1,
      totalTTFB_eq_zero_of name os hfail]
    simp [Int.zero_tdiv]
  · have hnotgt : ¬ ((0 : ℚ) > epsilon) := by norm_num [epsilon]
    rw [run_geoCalls_eq, hb, if_neg hnotgt]

theorem allChunksFail_zero_and_geo_skipped_witness :
    (TestProxyConcurrent "proxy" 1024 4
        [GetOutcome.connErr, GetOutcome.resp 500 9 1024 false 9,
         GetOutcome.resp 200 9 0 true 9, GetOutcome.connErr]
        (2 * 10 ^ 9) []).result.Bandwidth = 0 ∧
    (TestProxyConcurrent "proxy" 1024 4
        [GetOutcome.connErr, GetOutcome.resp 500 9 1024 false 9,
         GetOutcome.resp 200 9 0 true 9, GetOutcome.connErr]
        (2 * 10 ^ 9) []).result.TTFB = 0 ∧
    (TestProxyConcurrent "proxy" 1024 4
        [GetOutcome.connErr, GetOutcome.resp 500 9 1024 false 9,
         GetOutcome.resp 200 9 0 true 9, GetOutcome.connErr]
        (2 * 10 ^ 9) []).geoCalls = 0 :=
  allChunksFail_zero_and_geo_skipped "proxy" 1024 4 _ (2 * 10 ^ 9) []
    (by decide) (by norm_num)

/-- C2: the returned `TTFB` is the sum of the TTFBs of the chunks that
transferred at least one byte, divided (truncated) by the clamped
configured concurrency — not by the number of successful chunks; in
particular with concurrency 4, two chunks contributing 100ms each and
two failing entirely, the mean TTFB is 50ms. -/
theorem ttfbMean_divides_by_concurrency :
    (∀ (name : String) (ds cc : ℤ) (os : List GetOutcome) (e : ℤ)
        (apis : List ApiOutcome),
      (TestProxyConcurrent name ds cc os e apis).result.TTFB =
        ((os.filter fun o => (TestProxy name o).2 != 0).map
            fun o => (TestProxy name o).1.TTFB).sum.tdiv
          (clampConcurrent cc)) ∧
    (TestProxyConcurrent "proxy" 1000000 4
        [GetOutcome.resp 200 (100 * 1000000) 250000 false (10 ^ 9),
         GetOutcome.resp 200 (100 * 1000000) 250000 false (10 ^ 9),
         GetOutcome.connErr, GetOutcome.connErr]
        (10 ^ 9) []).result.TTFB = 50 * 1000000 := by
  constructor
  · intro name ds cc os e apis
    rw [(run_result_base name ds cc os e apis).2.1, totalTTFB_eq_filter]
  · norm_num [TestProxyConcurrent, totalDownloaded, totalTTFB,
      chunkContribution, TestProxy, aggregateBandwidth, seconds, epsilon,
      clampConcurrent, chunkSize, queryIPLocation]
    decide

/-- C3: with `concurrency` clamped to at least 1, each worker is asked
for `chunkSize = totalSize / concurrency` (truncated integer division),
and for non-negative `totalSize` the clamped concurrency times the
chunk size never exceeds `totalSize` — remainder bytes are dropped, not
an error. -/
theorem chunkSize_division_and_remainder_bound
    (downloadSize concurrentCount : ℤ) (h : 0 ≤ downloadSize) :
    chunkSize downloadSize concurrentCount =
      downloadSize.tdiv (clampConcurrent concurrentCount) ∧
    1 ≤ clampConcurrent concurrentCount ∧
    clampConcurrent concurrentCount =
      (if concurrentCount ≤ 0 then 1 else concurrentCount) ∧
    clampConcurrent concurrentCount * chunkSize downloadSize concurrentCount ≤
      downloadSize := by
  have hn : 1 ≤ clampConcurrent concurrentCount := by
    unfold clampConcurrent
    split_ifs with hc <;> omega
  refine ⟨rfl, hn, rfl, ?_⟩
  obtain ⟨m, rfl⟩ : ∃ m : ℕ, downloadSize = (m : ℤ) :=
    ⟨downloadSize.toNat, (Int.toNat_of_nonneg h).symm⟩
  obtain ⟨k, hk⟩ : ∃ k : ℕ, clampConcurrent concurrentCount = (k : ℤ) :=
    ⟨(clampConcurrent concurrentCount).toNat,
      (Int.toNat_of_nonneg (by omega)).symm⟩
  rw [chunkSize, hk]
  have htd : ((m : ℤ)).tdiv ((k : ℤ)) = ((m / k : ℕ) : ℤ) := rfl
  rw [htd]
  have h2 : k * (m / k) ≤ m := by
    rw [Nat.mul_comm]
    exact Nat.div_mul_le_self m k
  exact_mod_cast h2

theorem chunkSize_division_witness :
    chunkSize 1025 (-3) = Int.tdiv 1025 (clampConcurrent (-3)) ∧
    1 ≤ clampConcurrent (-3) ∧
    clampConcurrent (-3) = (if (-3 : ℤ) ≤ 0 then 1 else -3) ∧
    clampConcurrent (-3) * chunkSize 1025 (-3) ≤ 1025 :=
  chunkSize_division_and_remainder_bound 1025 (-3) (by norm_num)

/-- C4: `TestProxyConcurrent` invokes `queryIPLocation` exactly once iff
the aggregated `Bandwidth` exceeds the epsilon `1e-9`; in particular it
is invoked when at least one chunk transferred a byte (for any
physically possible wall time, positive and under `10^18` ns), and never
invoked when every chunk failed. -/
theorem geolocation_iff_bandwidth_above_epsilon (name : String) (ds cc : ℤ)
    (os : List GetOutcome) (e : ℤ) (apis : List ApiOutcome) :
    ((TestProxyConcurrent name ds cc os e apis).geoCalls = 1 ↔
      (TestProxyConcurrent name ds cc os e apis).result.Bandwidth > epsilon) ∧
    (0 < e → e < 10 ^ 18 → 1 ≤ totalDownloaded name os →
      (TestProxyConcurrent name ds cc os e apis).geoCalls = 1) ∧
    (totalDownloaded name os = 0 →
      (TestProxyConcurrent name ds cc os e apis).geoCalls = 0) := by
  refine ⟨?_, ?_, ?_⟩
  · rw [run_geoCalls_eq, (run_result_base name ds cc os e apis).1]
    split_ifs with h
    · simp [h]
    · simp [h]
  · intro he1 he2 hd
    have hgt : aggregateBandwidth (totalDownloaded name os) e > epsilon := by
      rw [aggregateBandwidth_eq]
      unfold epsilon
      rw [gt_iff_lt, div_lt_div_iff₀ (by norm_num) (by exact_mod_cast he1)]
      have hdq : (1 : ℚ) ≤ (totalDownloaded name os : ℚ) := by exact_mod_cast hd
      have heq : (e : ℚ) < 10 ^ 18 := by exact_mod_cast he2
      nlinarith
    rw [run_geoCalls_eq, if_pos hgt]
  · intro hd
    have hz : ¬ (aggregateBandwidth 0 e > epsilon) := by
      rw [aggregateBandwidth_eq]
      norm_num [epsilon]
    rw [run_geoCalls_eq, hd, if_neg hz]

theorem geolocation_iff_witness :
    (TestProxyConcurrent "p" 1024 1 [GetOutcome.resp 200 5 1024 false 7]
        (10 ^ 9) []).geoCalls = 1 ∧
    (TestProxyConcurrent "p" 1024 1 [GetOutcome.connErr]
        (10 ^ 9) []).geoCalls = 0 := by
  constructor
  · exact (geolocation_iff_bandwidth_above_epsilon "p" 1024 1
      [GetOutcome.resp 200 5 1024 false 7] (10 ^ 9) []).2.1
      (by norm_num) (by norm_num) (by decide)
  · exact (geolocation_iff_bandwidth_above_epsilon "p" 1024 1
      [GetOutcome.connErr] (10 ^ 9) []).2.2 (by decide)

/-- C5: for a token list of length n, the candidate list is exactly the
n ipinfo.io token URLs — permuted only among themselves — followed by
the fixed untokenized ip.sb fallback as the last entry; for an empty
token list it is exactly the single fallback entry. -/
theorem apiURLs_token_shuffle_fallback (tokens : List String)
    (shuffle : List String → List String)
    (hperm : (shuffle (tokens.map tokenURL)).Perm (tokens.map tokenURL)) :
    (buildApiURLs tokens shuffle).length = tokens.length + 1 ∧
    (buildApiURLs tokens shuffle).getLast? = some fallbackURL ∧
    ((buildApiURLs tokens shuffle).take tokens.length).Perm
      (tokens.map tokenURL) ∧
    (tokens = [] → buildApiURLs tokens shuffle = [fallbackURL]) := by
  have hlen : (shuffle (tokens.map tokenURL)).length = tokens.length := by
    rw [hperm.length_eq, List.length_map]
  refine ⟨?_, ?_, ?_, ?_⟩
  · simp [buildApiURLs, hlen]
  · simp [buildApiURLs]
  · rw [buildApiURLs, ← hlen, List.take_left]
    exact hperm
  · intro ht
    subst ht
    have h0 : shuffle [] = [] := hperm.eq_nil
    simp [buildApiURLs, h0]

theorem apiURLs_token_shuffle_fallback_witness :
    (buildApiURLs ["alpha", "beta"] List.reverse).length = 2 + 1 ∧
    (buildApiURLs ["alpha", "beta"] List.reverse).getLast? =
      some fallbackURL ∧
    ((buildApiURLs ["alpha", "beta"] List.reverse).take 2).Perm
      (["alpha", "beta"].map tokenURL) ∧
    buildApiURLs [] List.reverse = [fallbackURL] := by
  have h := apiURLs_token_shuffle_fallback ["alpha", "beta"] List.reverse
    (List.reverse_perm _)
  have h0 := apiURLs_token_shuffle_fallback [] List.reverse
    (List.reverse_perm _)
  exact ⟨h.1, h.2.1, h.2.2.1, h0.2.2.2 rfl⟩

/-- C6: a candidate response is accepted — stopping the iteration and
returning — iff the HTTP status is exactly 200, the body decodes as a
JSON object, and the object's `ip` field is a non-empty string;
the returned country code is the non-empty `country_code` string if
present, else the non-empty `country` string, else `""` while the
non-empty ip is still returned; every other candidate merely advances
the iteration. -/
theorem candidate_acceptance_characterization (o : ApiOutcome)
    (rest : List ApiOutcome) :
    queryIPLocation (o :: rest) =
      if specAccepts o = true then (specCountry o, specIp o, none)
      else queryIPLocation rest :=
  queryIPLocation_step o rest

/-- C7: a worker reports a failed chunk contributing zero bytes and zero
TTFB to the accumulators exactly when it gets a connection error, an
HTTP status more than 100 above 200, or reads zero body bytes; on the
success path the bytes read count even when `io.Copy` stopped on a
mid-stream error. -/
theorem chunk_failure_zero_contribution (name : String) (o : GetOutcome)
    (s : ℤ) (t r : ℕ) (m : Bool) (c : ℕ) :
    ((TestProxy name o).2 = 0 ↔ specChunkFails o = true) ∧
    (chunkContribution name o = (0, 0) ↔ specChunkFails o = true) ∧
    (specChunkFails (GetOutcome.resp s t r m c) = false →
      (TestProxy name (GetOutcome.resp s t r m c)).2 = (r : ℤ) ∧
      (TestProxy name (GetOutcome.resp s t r m c)).1.TTFB = (t : ℤ)) ∧
    (TestProxy name (GetOutcome.resp s t r true c)).2 =
      (TestProxy name (GetOutcome.resp s t r false c)).2 := by
  have hfst : ∀ o' : GetOutcome,
      (TestProxy name o').2 = 0 ↔ specChunkFails o' = true := by
    intro o'
    cases o' with
    | connErr => simp [TestProxy, specChunkFails]
    | resp s' t' r' m' c' =>
        simp only [TestProxy, specChunkFails]
        split_ifs with h1 h2
        · simp [h1]
        · simp only [Nat.cast_eq_zero] at h2
          simp [h2]
        · have h2' : r' ≠ 0 := by exact_mod_cast h2
          simp [h1, h2']
  refine ⟨hfst o, ?_, ?_, rfl⟩
  · rw [chunkContribution]
    split_ifs with hw
    · constructor
      · intro hpair
        exact absurd (congrArg Prod.fst hpair) hw
      · intro hsf
        exact absurd ((hfst o).mpr hsf) hw
    · simp only [not_not] at hw
      simp [(hfst o).mp hw]
  · intro hko
    have h1 : ¬ (100 < s - 200) := by
      intro hlt
      simp [specChunkFails, hlt] at hko
    have h2 : r ≠ 0 := by
      intro hr
      simp [specChunkFails, hr] at hko
    have h2' : ¬ ((r : ℤ) = 0) := by exact_mod_cast h2
    constructor <;> simp [TestProxy, h1, h2']

theorem chunk_failure_zero_contribution_witness :
    (TestProxy "p" (GetOutcome.resp 350 7 42 false 9)).2 = 0 ∧
    (TestProxy "p" (GetOutcome.resp 204 7 42 true 9)).2 = 42 ∧
    (TestProxy "p" (GetOutcome.resp 204 7 42 true 9)).1.TTFB = 7 := by
  refine ⟨?_, ?_, ?_⟩
  · exact (chunk_failure_zero_contribution "p"
      (GetOutcome.resp 350 7 42 false 9) 350 7 42 false 9).1.mpr (by decide)
  · exact ((chunk_failure_zero_contribution "p" GetOutcome.connErr
      204 7 42 true 9).2.2.1 (by decide)).1
  · exact ((chunk_failure_zero_contribution "p" GetOutcome.connErr
      204 7 42 true 9).2.2.1 (by decide)).2

/-- C8: when every candidate, the fallback included, fails to produce a
usable response, `queryIPLocation` returns empty country and IP with
the single aggregate error; a failed candidate only advances the
iteration to the next candidate. -/
theorem all_candidates_exhausted_error (outcomes : List ApiOutcome)
    (o : ApiOutcome) (rest : List ApiOutcome)
    (hall : ∀ x ∈ outcomes, specAccepts x = false)
    (ho : specAccepts o = false) :
    queryIPLocation outcomes =
      ("", "", some "all APIs failed or returned invalid data") ∧
    queryIPLocation (o :: rest) = queryIPLocation rest := by
  refine ⟨queryIPLocation_all_reject outcomes hall, ?_⟩
  rw [queryIPLocation_step, if_neg (by simp [ho])]

theorem all_candidates_exhausted_error_witness :
    queryIPLocation
        [ApiOutcome.netErr,
         ApiOutcome.resp 404 (some [("ip", JVal.str "1.2.3.4")]),
         ApiOutcome.resp 200 none,
         ApiOutcome.resp 200 (some [("country", JVal.str "US")]),
         ApiOutcome.resp 200 (some [("ip", JVal.str "")])] =
      ("", "", some "all APIs failed or returned invalid data") ∧
    queryIPLocation
        (ApiOutcome.netErr ::
          [ApiOutcome.resp 200 (some [("ip", JVal.str "9.9.9.9")])]) =
      queryIPLocation
        [ApiOutcome.resp 200 (some [("ip", JVal.str "9.9.9.9")])] :=
  all_candidates_exhausted_error _ _ _ (by decide) (by decide)

/-- C9: the emitted `Result` always has non-empty `CountryCode` and `IP`
(initialized to the marker `"NIL"`); `IP` is only ever overwritten with
the resolver's non-empty resolved ip, and a resolution returning an IP
with an empty country leaves `CountryCode` at `"NIL"`. -/
theorem result_marker_nonempty (name : String) (ds cc : ℤ)
    (os : List GetOutcome) (e : ℤ) (apis apis2 : List ApiOutcome)
    (ip : String) (hok : queryIPLocation apis2 = ("", ip, none)) :
    ((TestProxyConcurrent name ds cc os e apis).result.CountryCode ≠ "" ∧
     (TestProxyConcurrent name ds cc os e apis).result.IP ≠ "") ∧
    ((TestProxyConcurrent name ds cc os e apis).result.IP = "NIL" ∨
      ((TestProxyConcurrent name ds cc os e apis).result.IP =
          (queryIPLocation apis).2.1 ∧
        (queryIPLocation apis).2.2 = none ∧
        (queryIPLocation apis).2.1 ≠ "")) ∧
    ((TestProxyConcurrent name ds cc os e apis2).result.CountryCode = "NIL" ∧
     ((TestProxyConcurrent name ds cc os e apis2).result.IP = "NIL" ∨
      (TestProxyConcurrent name ds cc os e apis2).result.IP = ip)) := by
  refine ⟨?_, ?_, ?_⟩
  · rcases run_geo_cases name ds cc os e apis with
      ⟨h1, h2⟩ | ⟨c, ip', hq, hip, hcc⟩
    · rw [h1, h2]
      constructor <;> simp
    · constructor
      · rw [hcc]
        split_ifs with hc
        · exact hc
        · simp
      · rw [hip]
        exact queryIPLocation_ok_ip_ne apis c ip' hq
  · rcases run_geo_cases name ds cc os e apis with
      ⟨h1, h2⟩ | ⟨c, ip', hq, hip, hcc⟩
    · left
      exact h2
    · right
      refine ⟨by rw [hip, hq], by rw [hq], ?_⟩
      rw [hq]
      exact queryIPLocation_ok_ip_ne apis c ip' hq
  · rcases run_geo_cases name ds cc os e apis2 with
      ⟨h1, h2⟩ | ⟨c, ip', hq, hip, hcc⟩
    · exact ⟨h1, Or.inl h2⟩
    · have heq : (c, ip', (none : Option String)) = ("", ip, none) :=
        hq.symm.trans hok
      have hc : c = "" := congrArg (fun t => t.1) heq
      have hi : ip' = ip := congrArg (fun t => t.2.1) heq
      subst hc
      subst hi
      refine ⟨?_, Or.inr hip⟩
      rw [hcc]
      simp

theorem result_marker_nonempty_witness :
    ((TestProxyConcurrent "p" 1024 1 [GetOutcome.resp 200 5 1024 false 7]
        (10 ^ 9) []).result.CountryCode ≠ "" ∧
     (TestProxyConcurrent "p" 1024 1 [GetOutcome.resp 200 5 1024 false 7]
        (10 ^ 9) []).result.IP ≠ "") ∧
    ((TestProxyConcurrent "p" 1024 1 [GetOutcome.resp 200 5 1024 false 7]
        (10 ^ 9) []).result.IP = "NIL" ∨
      ((TestProxyConcurrent "p" 1024 1 [GetOutcome.resp 200 5 1024 false 7]
          (10 ^ 9) []).result.IP = (queryIPLocation []).2.1 ∧
        (queryIPLocation ([] : List ApiOutcome)).2.2 = none ∧
        (queryIPLocation ([] : List ApiOutcome)).2.1 ≠ "")) ∧
    ((TestProxyConcurrent "p" 1024 1 [GetOutcome.resp 200 5 1024 false 7]
        (10 ^ 9)
        [ApiOutcome.resp 200
          (some [("ip", JVal.str "8.8.8.8")])]).result.CountryCode = "NIL" ∧
     ((TestProxyConcurrent "p" 1024 1 [GetOutcome.resp 200 5 1024 false 7]
          (10 ^ 9)
          [ApiOutcome.resp 200
            (some [("ip", JVal.str "8.8.8.8")])]).result.IP = "NIL" ∨
      (TestProxyConcurrent "p" 1024 1 [GetOutcome.resp 200 5 1024 false 7]
          (10 ^ 9)
          [ApiOutcome.resp 200
            (some [("ip", JVal.str "8.8.8.8")])]).result.IP = "8.8.8.8")) :=
  result_marker_nonempty "p" 1024 1 [GetOutcome.resp 200 5 1024 false 7]
    (10 ^ 9) []
    [ApiOutcome.resp 200 (some [("ip", JVal.str "8.8.8.8")])]
    "8.8.8.8" (by decide)

/-- C10: in the dial closures, an address whose port fails to parse as
an unsigned 16-bit integer is dialled with `DstPort = 0` rather than
returning an error; the dial errors only when the address cannot be
split into host and port at all. -/
theorem dial_port_parse_ignored (host port : String) (p : ℕ)
    (split : Option (String × String)) :
    (dialMetadata split = none ↔ split = none) ∧
    (parseUint16 port = none →
      dialMetadata (some (host, port)) = some (host, 0)) ∧
    (parseUint16 port = some p →
      dialMetadata (some (host, port)) = some (host, p)) := by
  refine ⟨?_, ?_, ?_⟩
  · cases split with
    | none => simp [dialMetadata]
    | some hp => simp [dialMetadata]
  · intro hparse
    simp [dialMetadata, hparse]
  · intro hparse
    simp [dialMetadata, hparse]

theorem dial_port_parse_ignored_witness :
    dialMetadata (some ("example.com", "99999")) = some ("example.com", 0) ∧
    dialMetadata (some ("example.com", "x80")) = some ("example.com", 0) ∧
    dialMetadata (some ("example.com", "443")) = some ("example.com", 443) ∧
    dialMetadata none = none := by
  refine ⟨?_, ?_, ?_, ?_⟩
  · exact (dial_port_parse_ignored "example.com" "99999" 0 none).2.1
      (by decide)
  · exact (dial_port_parse_ignored "example.com" "x80" 0 none).2.1
      (by decide)
  · exact (dial_port_parse_ignored "example.com" "443" 443 none).2.2
      (by decide)
  · exact (dial_port_parse_ignored "h" "80" 0 none).1.mpr rfl

end ClashSpeedtest
